import Mathlib

/-!
Shallow embedding of `src/device.js` (Device, v2.0.0): a browser
device-classification helper.  The monitor state consists of the closure
variables `size`, `sizeChangeListeners` and `orientationChangeListeners`;
the host environment (Modernizr media-query results, `window.orientation`)
is modelled by an `Env` record.  Listener callbacks are opaque JS values;
an invocation is recorded in a trace as the pair of the invoked function
value and its argument list, rather than executed.
-/

namespace DeviceJs

/-- JS values, as far as this program distinguishes them.  Function and
object values are opaque and carry an identity. -/
inductive JSVal where
  | null
  | undefined
  | bool (b : Bool)
  | num (n : Int)
  | str (s : String)
  | func (id : Nat)
  | obj (id : Nat)
deriving DecidableEq, Repr

/-- The JS `typeof` operator on the modelled values. -/
def jsTypeof : JSVal → String
  | .null => "object"
  | .undefined => "undefined"
  | .bool _ => "boolean"
  | .num _ => "number"
  | .str _ => "string"
  | .func _ => "function"
  | .obj _ => "object"

/-- JS truthiness (`ToBoolean`) on the modelled values.  The numeric case
ignores NaN (our `num` carries an integer). -/
def jsTruthy : JSVal → Bool
  | .null => false
  | .undefined => false
  | .bool b => b
  | .num n => !(n == 0)
  | .str s => !(s == "")
  | .func _ => true
  | .obj _ => true

/-- JS `ToNumber`, returning `none` for NaN.  String parsing is restricted
to optionally-signed decimal digit strings; the strings that ever reach
this function in the program ("function" from `typeof`, size labels) carry
no surrounding whitespace, so trimming is omitted. -/
def jsToNumber : JSVal → Option Int
  | .null => some 0
  | .undefined => none
  | .bool b => some (if b then 1 else 0)
  | .num n => some n
  | .str s =>
      if s == "" then some 0
      else
        match s.toList with
        | '-' :: ds =>
            if !ds.isEmpty && ds.all Char.isDigit
            then some (-(ds.foldl (fun a c => a * 10 + (c.toNat - 48 : Int)) 0))
            else none
        | ds =>
            if ds.all Char.isDigit
            then some (ds.foldl (fun a c => a * 10 + (c.toNat - 48 : Int)) 0)
            else none
  | .func _ => none
  | .obj _ => none

/-- JS strict equality (`===`) on the modelled values: same type and same
value; function/object identity is by id. -/
def jsStrictEq : JSVal → JSVal → Bool
  | .null, .null => true
  | .undefined, .undefined => true
  | .bool x, .bool y => x == y
  | .num x, .num y => x == y
  | .str x, .str y => x == y
  | .func x, .func y => x == y
  | .obj x, .obj y => x == y
  | _, _ => false

/-- JS loose equality (`==`) on the modelled values: same-type comparisons
are strict; `null`/`undefined` equal only each other; the remaining mixed
comparisons coerce both sides with `ToNumber` (NaN compares unequal). -/
def jsLooseEq (a b : JSVal) : Bool :=
  match a, b with
  | .null, .null => true
  | .undefined, .undefined => true
  | .null, .undefined => true
  | .undefined, .null => true
  | .null, _ => false
  | .undefined, _ => false
  | _, .null => false
  | _, .undefined => false
  | .bool x, .bool y => x == y
  | .num x, .num y => x == y
  | .str x, .str y => x == y
  | .func x, .func y => x == y
  | .obj x, .obj y => x == y
  | a, b =>
      match jsToNumber a, jsToNumber b with
      | some x, some y => x == y
      | _, _ => false

/-- A listener entry, `{ func: ..., args: [...] }`, holding the registered
callback value and the arguments captured after the `autoCall` flag. -/
structure ListenerEvent where
  func : JSVal
  args : List JSVal
deriving DecidableEq, Repr

/-- A recorded callback invocation: the invoked function value and the
argument list it was applied to. -/
abbrev Call := JSVal × List JSVal

/-- The closure state of one `Device` instance: the cached `size`
(`null` until the first classification) and the two listener stacks. -/
structure DeviceState where
  size : JSVal
  sizeChangeListeners : List ListenerEvent
  orientationChangeListeners : List ListenerEvent
deriving DecidableEq, Repr

/-- Host-environment snapshot: the two `Modernizr.mq` results for the
configured small/medium media queries, and `window.orientation`. -/
structure Env where
  mqSmall : Bool
  mqMedium : Bool
  orientation : Int
deriving DecidableEq, Repr

/-- The closure state right after `var size = null;` and the two empty
listener arrays, before `device.init()` runs. -/
def initialState : DeviceState :=
  { size := JSVal.null, sizeChangeListeners := [], orientationChangeListeners := [] }

/-- The condition of the guard `if (!typeof func == 'function') return;`
in `addSizeChangeEvent` / `addOrientationChangeEvent`.  `!` binds tighter
than `==`, so the source expression is `(!(typeof func)) == 'function'`:
a boolean compared loosely against the string `"function"`. -/
def addEventGuard (func : JSVal) : Bool :=
  jsLooseEq (JSVal.bool (!(jsTruthy (JSVal.str (jsTypeof func))))) (JSVal.str "function")

/-- `addSizeChangeEvent(func, autoCall, ...)`: guard, `autoCall = autoCall
|| false`, build the event from the arguments at index ≥ 2, invoke
immediately when `autoCall === true`, push onto `sizeChangeListeners`.
Returns the new state and the trace of immediate invocations. -/
def addSizeChangeEvent (s : DeviceState) (func autoCall : JSVal) (rest : List JSVal) :
    DeviceState × List Call :=
  if addEventGuard func then (s, [])
  else
    let autoCallD := if jsTruthy autoCall then autoCall else JSVal.bool false
    let event : ListenerEvent := { func := func, args := rest }
    let calls := if jsStrictEq autoCallD (JSVal.bool true) then [(func, rest)] else []
    ({ s with sizeChangeListeners := s.sizeChangeListeners ++ [event] }, calls)

/-- `addOrientationChangeEvent(func, autoCall, ...)`: same body as
`addSizeChangeEvent` with the orientation listener stack. -/
def addOrientationChangeEvent (s : DeviceState) (func autoCall : JSVal) (rest : List JSVal) :
    DeviceState × List Call :=
  if addEventGuard func then (s, [])
  else
    let autoCallD := if jsTruthy autoCall then autoCall else JSVal.bool false
    let event : ListenerEvent := { func := func, args := rest }
    let calls := if jsStrictEq autoCallD (JSVal.bool true) then [(func, rest)] else []
    ({ s with orientationChangeListeners := s.orientationChangeListeners ++ [event] }, calls)

/-- The `$.each` loop body shared by `runSizeChangeEvents` and
`runOrientationChangeEvents`: invoke `eventObj.func.apply(this,
eventObj.args)` for each entry whose `func` satisfies
`typeof eventObj.func == 'function'`, in list order. -/
def runEventList (l : List ListenerEvent) : List Call :=
  l.filterMap (fun e =>
    if jsLooseEq (JSVal.str (jsTypeof e.func)) (JSVal.str "function")
    then some (e.func, e.args) else none)

/-- `runSizeChangeEvents()`: dispatch the size listener stack. -/
def runSizeChangeEvents (s : DeviceState) : List Call :=
  runEventList s.sizeChangeListeners

/-- `runOrientationChangeEvents()`: dispatch the orientation listener stack. -/
def runOrientationChangeEvents (s : DeviceState) : List Call :=
  runEventList s.orientationChangeListeners

/-- The `switch (true)` classification in `updateSize`: first-match over
`Modernizr.mq(options.mq.small)`, then `Modernizr.mq(options.mq.medium)`,
with `'large'` as the default arm. -/
def classifySize (env : Env) : String :=
  if env.mqSmall then "small"
  else if env.mqMedium then "medium"
  else "large"

/-- `var fire = newSize != size;` — loose inequality between the freshly
computed label and the cached `size` (`null` before the first pass). -/
def updateSizeFires (env : Env) (s : DeviceState) : Bool :=
  !(jsLooseEq (JSVal.str (classifySize env)) s.size)

/-- `updateSize()`: classify, compute `fire`, assign `size = newSize`,
then `if (fire) this.runSizeChangeEvents();`.  The dispatch runs against
the state in which `size` has already been reassigned. -/
def updateSize (env : Env) (s : DeviceState) : DeviceState × List Call :=
  let newSize := classifySize env
  let fire := updateSizeFires env s
  let s1 := { s with size := JSVal.str newSize }
  (s1, if fire then runSizeChangeEvents s1 else [])

/-- `getSize()`: the guard `if (null === this.size)` reads the property
`this.size` — the `device` object has no `size` property in v2.0.0, so it
evaluates to `undefined` — and compares it strictly against `null`.  When
the guard holds the method runs `updateSize()`; it then returns the
closure variable `size`. -/
def getSize (env : Env) (s : DeviceState) : JSVal × DeviceState × List Call :=
  if jsStrictEq JSVal.null JSVal.undefined then
    let r := updateSize env s
    (r.1.size, r.1, r.2)
  else
    (s.size, s, [])

/-- `getOrientation()`: `'portrait'` when `window.orientation === 0`,
else `'landscape'`. -/
def getOrientation (env : Env) : String :=
  if env.orientation == 0 then "portrait" else "landscape"

/-- `sizeIs(...)`: `$.inArray(this.getSize(), arguments) !== -1` — strict
membership of the current size among the passed labels. -/
def sizeIs (env : Env) (s : DeviceState) (labels : List JSVal) :
    Bool × DeviceState × List Call :=
  let r := getSize env s
  (labels.any (fun l => jsStrictEq r.1 l), r.2.1, r.2.2)

/-- One firing of the host `orientationchange` event: the handler bound by
`initOrientationListener` is `runOrientationChangeEvents` itself, with no
change-detection gate and no state update.  The environment snapshot (and
in particular its orientation angle) is available to the handler but never
consulted. -/
def hostOrientationEvent (_env : Env) (s : DeviceState) : DeviceState × List Call :=
  (s, runOrientationChangeEvents s)

/-- Construction: `device.init()` runs `this.updateSize()` on the fresh
closure state (the subsequent listener bindings only subscribe handlers to
host events). -/
def constructDevice (env : Env) : DeviceState × List Call :=
  updateSize env initialState

/-- `updateSize()` driven over a sequence of environment snapshots,
recording for each call whether it dispatched the size listeners. -/
def updateSizeRun : DeviceState → List Env → DeviceState × List Bool
  | s, [] => (s, [])
  | s, e :: es =>
    let fired := updateSizeFires e s
    let s1 := (updateSize e s).1
    let r := updateSizeRun s1 es
    (r.1, fired :: r.2)

/-- Environment in which the small media query matches. -/
def envSmall : Env := { mqSmall := true, mqMedium := false, orientation := 0 }

/-- Environment in which only the medium media query matches. -/
def envMedium : Env := { mqSmall := false, mqMedium := true, orientation := 0 }

/-- Environment in which neither media query matches. -/
def envLarge : Env := { mqSmall := false, mqMedium := false, orientation := 0 }

lemma addEventGuard_false (f : JSVal) : addEventGuard f = false := by
  cases f <;> simp only [addEventGuard, jsTypeof] <;> decide

lemma jsStrictEq_iff (a b : JSVal) : jsStrictEq a b = true ↔ a = b := by
  cases a <;> cases b <;> simp [jsStrictEq]

lemma addSizeChangeEvent_state (s : DeviceState) (f a : JSVal) (rest : List JSVal) :
    (addSizeChangeEvent s f a rest).1
      = { s with sizeChangeListeners := s.sizeChangeListeners ++ [⟨f, rest⟩] } := by
  simp [addSizeChangeEvent, addEventGuard_false]

lemma addOrientationChangeEvent_state (s : DeviceState) (f a : JSVal) (rest : List JSVal) :
    (addOrientationChangeEvent s f a rest).1
      = { s with orientationChangeListeners := s.orientationChangeListeners ++ [⟨f, rest⟩] } := by
  simp [addOrientationChangeEvent, addEventGuard_false]

lemma addSizeChangeEvent_calls (s : DeviceState) (f a : JSVal) (rest : List JSVal) :
    (addSizeChangeEvent s f a rest).2
      = if jsStrictEq (if jsTruthy a then a else JSVal.bool false) (JSVal.bool true)
        then [(f, rest)] else [] := by
  simp [addSizeChangeEvent, addEventGuard_false]

lemma addOrientationChangeEvent_calls (s : DeviceState) (f a : JSVal) (rest : List JSVal) :
    (addOrientationChangeEvent s f a rest).2
      = if jsStrictEq (if jsTruthy a then a else JSVal.bool false) (JSVal.bool true)
        then [(f, rest)] else [] := by
  simp [addOrientationChangeEvent, addEventGuard_false]

lemma runEventList_append (l₁ l₂ : List ListenerEvent) :
    runEventList (l₁ ++ l₂) = runEventList l₁ ++ runEventList l₂ := by
  simp [runEventList, List.filterMap_append]

lemma runEventList_callable (entries : List ListenerEvent)
    (h : ∀ e ∈ entries, ∃ id, e.func = JSVal.func id) :
    runEventList entries = entries.map (fun e => (e.func, e.args)) := by
  induction entries with
  | nil => rfl
  | cons e es ih =>
      obtain ⟨id, hid⟩ := h e (List.mem_cons_self e es)
      have hrec : runEventList es = es.map (fun x => (x.func, x.args)) :=
        ih (fun x hx => h x (List.mem_cons_of_mem e hx))
      have hcond : jsLooseEq (JSVal.str (jsTypeof e.func)) (JSVal.str "function") = true := by
        rw [hid]; rfl
      rw [hid] at hcond
      simp only [runEventList] at hrec ⊢
      simp [List.filterMap_cons, hcond, hrec, hid]

lemma noInvoke_of_ne_true (a : JSVal) (h : a ≠ JSVal.bool true) :
    jsStrictEq (if jsTruthy a then a else JSVal.bool false) (JSVal.bool true) = false := by
  by_cases ht : jsTruthy a = true
  · simp only [ht, if_pos]
    cases hq : jsStrictEq a (JSVal.bool true)
    · rfl
    · exact absurd ((jsStrictEq_iff a (JSVal.bool true)).mp hq) h
  · simp [ht]
    decide

/-- C1: the registration guard `if (!typeof func == 'function') return;`
parses as `(!(typeof func)) == 'function'` and is therefore always false,
so registering the non-callable value `42` DOES enqueue an entry in the
listener list, contrary to the claim's "returns without enqueueing"; the
entry is nevertheless never invoked (dispatch skips it via the `typeof`
check in the run loop) and no immediate invocation occurs. -/
theorem C1_noncallable_enqueued_never_invoked :
    (addSizeChangeEvent initialState (JSVal.num 42) (JSVal.bool false) []).2 = [] ∧
    (addSizeChangeEvent initialState (JSVal.num 42) (JSVal.bool false) []).1.sizeChangeListeners
      = [⟨JSVal.num 42, []⟩] ∧
    runSizeChangeEvents (addSizeChangeEvent initialState (JSVal.num 42) (JSVal.bool false) []).1
      = [] ∧
    (addOrientationChangeEvent initialState (JSVal.num 42)
        (JSVal.bool false) []).1.orientationChangeListeners
      = [⟨JSVal.num 42, []⟩] ∧
    runOrientationChangeEvents
      (addOrientationChangeEvent initialState (JSVal.num 42) (JSVal.bool false) []).1 = [] := by
  decide

/-- C3: the lazy-initialization guard in `getSize` compares `this.size` —
`undefined`, because the v2 device object has no `size` property — strictly
against `null`, so it never fires: with the cached size still `null`,
`getSize` returns `null` unchanged and performs no `updateSize`, even in an
environment where classification would have produced "small". -/
theorem C3_getSize_no_lazy_update :
    getSize envSmall initialState = (JSVal.null, initialState, []) ∧
    jsStrictEq JSVal.null JSVal.undefined = false := by
  decide

/-- C4: classification is first-match in the fixed order small → medium →
large: if the small media query matches the result is "small" (also when
both match simultaneously); else if the medium one matches the result is
"medium"; else the fallback "large". -/
theorem C4_classify_first_match (env : Env) :
    (env.mqSmall = true → classifySize env = "small") ∧
    (env.mqSmall = false → env.mqMedium = true → classifySize env = "medium") ∧
    (env.mqSmall = false → env.mqMedium = false → classifySize env = "large") ∧
    (env.mqSmall = true → env.mqMedium = true → classifySize env = "small") := by
  refine ⟨fun h1 => ?_, fun h1 h2 => ?_, fun h1 h2 => ?_, fun h1 h2 => ?_⟩ <;>
    simp [classifySize, *]

/-- Witness for C4 at concrete environments, one per branch of the
first-match rule. -/
theorem C4_witness :
    classifySize envSmall = "small" ∧ classifySize envMedium = "medium" ∧
    classifySize envLarge = "large" ∧
    classifySize { mqSmall := true, mqMedium := true, orientation := 0 } = "small" :=
  ⟨(C4_classify_first_match envSmall).1 rfl,
   (C4_classify_first_match envMedium).2.1 rfl rfl,
   (C4_classify_first_match envLarge).2.2.1 rfl rfl,
   (C4_classify_first_match { mqSmall := true, mqMedium := true, orientation := 0 }).2.2.2 rfl rfl⟩

/-- C5: registering a callable with `autoCall = true` invokes it exactly
once immediately, with exactly the arguments captured after the flag, and
also appends the entry so the next size-change dispatch invokes it again
with the same bound arguments. -/
theorem C5_autoCall_immediate (s : DeviceState) (id : Nat) (rest : List JSVal) :
    (addSizeChangeEvent s (JSVal.func id) (JSVal.bool true) rest).2
      = [(JSVal.func id, rest)] ∧
    (addSizeChangeEvent s (JSVal.func id) (JSVal.bool true) rest).1.sizeChangeListeners
      = s.sizeChangeListeners ++ [⟨JSVal.func id, rest⟩] ∧
    runSizeChangeEvents (addSizeChangeEvent s (JSVal.func id) (JSVal.bool true) rest).1
      = runSizeChangeEvents s ++ [(JSVal.func id, rest)] := by
  refine ⟨?_, ?_, ?_⟩
  · rw [addSizeChangeEvent_calls]; rfl
  · rw [addSizeChangeEvent_state]
  · rw [addSizeChangeEvent_state]
    show runEventList (s.sizeChangeListeners ++ [⟨JSVal.func id, rest⟩])
      = runEventList s.sizeChangeListeners ++ [(JSVal.func id, rest)]
    rw [runEventList_append]
    rfl

/-- C10: `updateSize` assigns the new label to the cached size before
dispatching: the post state's size is the new label, the dispatch trace is
computed against that post state, and a `getSize` performed during the
dispatch (i.e. at the post state) already returns the new label. -/
theorem C10_size_assigned_before_dispatch (env env2 : Env) (s : DeviceState) :
    (updateSize env s).1.size = JSVal.str (classifySize env) ∧
    (updateSize env s).2
      = (if updateSizeFires env s then runSizeChangeEvents (updateSize env s).1 else []) ∧
    (getSize env2 (updateSize env s).1).1 = JSVal.str (classifySize env) :=
  ⟨rfl, rfl, rfl⟩

/-- C2: `updateSize` stores the newly computed size unconditionally and
fires the size-change dispatch exactly when the new label differs from the
cached one, the initial `null` counting as different from every label; the
sequence classifying to [small, small, medium, medium, large] from the
unset state dispatches exactly at the first, third and fifth calls. -/
theorem C2_change_detection (env : Env) (s : DeviceState)
    (h : s.size = JSVal.null ∨ ∃ l : String, s.size = JSVal.str l) :
    (updateSize env s).1.size = JSVal.str (classifySize env) ∧
    (updateSizeFires env s = true ↔ s.size ≠ JSVal.str (classifySize env)) ∧
    (updateSize env s).2
      = (if updateSizeFires env s then runSizeChangeEvents (updateSize env s).1 else []) ∧
    (updateSizeRun initialState [envSmall, envSmall, envMedium, envMedium, envLarge]).2
      = [true, false, true, false, true] := by
  refine ⟨rfl, ?_, rfl, by decide⟩
  rcases h with h | ⟨l, h⟩
  · simp [updateSizeFires, h, jsLooseEq]
  · simp only [updateSizeFires, h, jsLooseEq]
    constructor
    · intro hb hc
      injection hc with hl
      rw [hl] at hb
      simp at hb
    · intro hne
      have hq : (classifySize env == l) = false := by
        cases hq : classifySize env == l
        · rfl
        · exact absurd (congrArg JSVal.str (eq_of_beq hq).symm) hne
      simp [hq]

/-- Witness for C2 at the unset initial state and a small environment. -/
theorem C2_witness :
    (updateSize envSmall initialState).1.size = JSVal.str (classifySize envSmall) ∧
    (updateSizeFires envSmall initialState = true ↔
      initialState.size ≠ JSVal.str (classifySize envSmall)) ∧
    (updateSizeRun initialState [envSmall, envSmall, envMedium, envMedium, envLarge]).2
      = [true, false, true, false, true] :=
  have h := C2_change_detection envSmall initialState (Or.inl rfl)
  ⟨h.1, h.2.1, h.2.2.2⟩

/-- C6: every host orientationchange firing dispatches the full orientation
listener list unconditionally: the dispatch is the full run of the list,
the state is unchanged, a second consecutive firing (with any environment,
in particular an identical orientation angle) produces the identical full
dispatch again, and every callable registered listener appears in the trace
with its bound arguments. -/
theorem C6_orientation_unconditional (env env2 : Env) (s : DeviceState) :
    (hostOrientationEvent env s).2 = runOrientationChangeEvents s ∧
    (hostOrientationEvent env s).1 = s ∧
    (hostOrientationEvent env2 (hostOrientationEvent env s).1).2
      = (hostOrientationEvent env s).2 ∧
    (∀ e ∈ s.orientationChangeListeners, jsTypeof e.func = "function" →
      (e.func, e.args) ∈ (hostOrientationEvent env s).2) := by
  refine ⟨rfl, rfl, rfl, fun e he hty => ?_⟩
  show (e.func, e.args) ∈ runEventList s.orientationChangeListeners
  refine List.mem_filterMap.mpr ⟨e, he, ?_⟩
  rw [hty]
  rfl

/-- Witness for C6: a registered callable orientation listener is invoked
with its bound argument by a host orientation event. -/
theorem C6_witness :
    (JSVal.func 0, [JSVal.str "a"]) ∈ (hostOrientationEvent envLarge
      { size := JSVal.null, sizeChangeListeners := [],
        orientationChangeListeners := [⟨JSVal.func 0, [JSVal.str "a"]⟩] }).2 :=
  (C6_orientation_unconditional envLarge envLarge
      { size := JSVal.null, sizeChangeListeners := [],
        orientationChangeListeners := [⟨JSVal.func 0, [JSVal.str "a"]⟩] }).2.2.2
    ⟨JSVal.func 0, [JSVal.str "a"]⟩ (by decide) rfl

/-- `addSizeChangeEvent` folded over a list of entries, registering each
with `autoCall = false` and its own bound arguments. -/
def addAllSize (s : DeviceState) (entries : List ListenerEvent) : DeviceState :=
  entries.foldl (fun st e => (addSizeChangeEvent st e.func (JSVal.bool false) e.args).1) s

lemma addAllSize_listeners (entries : List ListenerEvent) (s : DeviceState) :
    (addAllSize s entries).sizeChangeListeners = s.sizeChangeListeners ++ entries := by
  induction entries generalizing s with
  | nil => simp [addAllSize]
  | cons e es ih =>
      show (addAllSize ((addSizeChangeEvent s e.func (JSVal.bool false) e.args).1)
        es).sizeChangeListeners = _
      rw [ih, addSizeChangeEvent_state]
      simp

/-- C7: registering N callable listeners then dispatching invokes exactly
those N callbacks, in registration order, each with its own bound
arguments; and every operation only ever appends to the listener lists
(registration appends one entry, updateSize leaves both lists unchanged). -/
theorem C7_round_trip (entries : List ListenerEvent) (s : DeviceState)
    (h : ∀ e ∈ entries, ∃ id, e.func = JSVal.func id) :
    (addAllSize s entries).sizeChangeListeners = s.sizeChangeListeners ++ entries ∧
    runSizeChangeEvents (addAllSize s entries)
      = runSizeChangeEvents s ++ entries.map (fun e => (e.func, e.args)) ∧
    (∀ f a rest, ∃ t, (addSizeChangeEvent s f a rest).1.sizeChangeListeners
      = s.sizeChangeListeners ++ t) ∧
    (∀ f a rest, ∃ t, (addOrientationChangeEvent s f a rest).1.orientationChangeListeners
      = s.orientationChangeListeners ++ t) ∧
    (∀ env, (updateSize env s).1.sizeChangeListeners = s.sizeChangeListeners ∧
      (updateSize env s).1.orientationChangeListeners = s.orientationChangeListeners) := by
  refine ⟨addAllSize_listeners entries s, ?_,
    fun f a rest => ⟨[⟨f, rest⟩], by rw [addSizeChangeEvent_state]⟩,
    fun f a rest => ⟨[⟨f, rest⟩], by rw [addOrientationChangeEvent_state]⟩,
    fun env => ⟨rfl, rfl⟩⟩
  show runEventList (addAllSize s entries).sizeChangeListeners = _
  rw [addAllSize_listeners, runEventList_append, runEventList_callable entries h]
  rfl

/-- Witness for C7: two listeners registered in order are dispatched in
that order with their own bound arguments. -/
theorem C7_witness :
    runSizeChangeEvents (addAllSize initialState
      [⟨JSVal.func 0, [JSVal.str "x"]⟩, ⟨JSVal.func 1, []⟩])
      = [(JSVal.func 0, [JSVal.str "x"]), (JSVal.func 1, [])] := by
  have h := C7_round_trip [⟨JSVal.func 0, [JSVal.str "x"]⟩, ⟨JSVal.func 1, []⟩] initialState
    (by intro e he; fin_cases he <;> exact ⟨_, rfl⟩)
  rw [h.2.1]
  decide

/-- C8: `sizeIs` returns true exactly when the value `getSize` returns is
among the passed labels, returns false for the empty label list, and in
particular `sizeIs("large","medium")` is true when the cached size is
"medium" and false when it is "small". -/
theorem C8_sizeIs_membership (env : Env) (s : DeviceState) (labels : List JSVal) :
    ((sizeIs env s labels).1 = true ↔ (getSize env s).1 ∈ labels) ∧
    (sizeIs env s []).1 = false ∧
    (sizeIs envLarge { initialState with size := JSVal.str "medium" }
      [JSVal.str "large", JSVal.str "medium"]).1 = true ∧
    (sizeIs envLarge { initialState with size := JSVal.str "small" }
      [JSVal.str "large", JSVal.str "medium"]).1 = false := by
  refine ⟨?_, rfl, by decide, by decide⟩
  show (labels.any fun l => jsStrictEq (getSize env s).1 l) = true ↔ _
  rw [List.any_eq_true]
  constructor
  · rintro ⟨l, hl, hs⟩
    rw [(jsStrictEq_iff _ _).mp hs]
    exact hl
  · intro hm
    exact ⟨(getSize env s).1, hm, (jsStrictEq_iff _ _).mpr rfl⟩

/-- C9: the immediate auto-invocation happens only when `autoCall` is
exactly the boolean `true`: for every other value — including truthy
non-boolean values such as 1 — registration performs no immediate call yet
still appends the entry, for both registration methods. -/
theorem C9_autoCall_strict (s : DeviceState) (f a : JSVal) (rest : List JSVal)
    (h : a ≠ JSVal.bool true) :
    (addSizeChangeEvent s f a rest).2 = [] ∧
    (addSizeChangeEvent s f a rest).1.sizeChangeListeners
      = s.sizeChangeListeners ++ [⟨f, rest⟩] ∧
    (addOrientationChangeEvent s f a rest).2 = [] ∧
    (addOrientationChangeEvent s f a rest).1.orientationChangeListeners
      = s.orientationChangeListeners ++ [⟨f, rest⟩] := by
  refine ⟨?_, ?_, ?_, ?_⟩
  · rw [addSizeChangeEvent_calls]; simp [noInvoke_of_ne_true a h]
  · rw [addSizeChangeEvent_state]
  · rw [addOrientationChangeEvent_calls]; simp [noInvoke_of_ne_true a h]
  · rw [addOrientationChangeEvent_state]

/-- Witness for C9 at the truthy non-boolean flag 1: no immediate call,
entry still enqueued. -/
theorem C9_witness :
    (addSizeChangeEvent initialState (JSVal.func 0) (JSVal.num 1) [JSVal.str "x"]).2 = [] ∧
    (addSizeChangeEvent initialState (JSVal.func 0) (JSVal.num 1)
      [JSVal.str "x"]).1.sizeChangeListeners = [⟨JSVal.func 0, [JSVal.str "x"]⟩] :=
  have h := C9_autoCall_strict initialState (JSVal.func 0) (JSVal.num 1) [JSVal.str "x"]
    (by decide)
  ⟨h.1, by rw [h.2.1]; rfl⟩

end DeviceJs
